import Mathlib

/-!
# Verification of the ga4 reporting core

Shallow embedding of the comparison/insight derivation pipeline of the ga4
repository (Python), together with proofs of the specification claims.

Modelling conventions, used throughout:

* Python `float` values are modelled as `ℚ` (the code only ever performs
  field arithmetic and comparisons on finite values; NaN/inf inputs are out
  of the spec's contract).
* Python dictionaries with a fixed key set are modelled as structures; a key
  that may be missing (accessed via `dict.get(key, default)`) becomes an
  `Option` field read through `Option.getD`.  An *absent or empty* section
  (`if not section: return`, empty dict being falsy) is modelled as `none`.
* Python's `x or y` on a numeric-or-`None` value (`None` and `0.0` are both
  falsy) is modelled by `pyOr`.
* Enumerated string fields (`"above"/"below"/"at"`, `"up"/"down"/"neutral"`,
  …) are modelled as inductive types.
* String interpolation of numeric values into message templates
  (`f"... {x:.1f} ..."`) is not modelled: the template text is kept, the
  interpolated number is dropped.  No claim concerns the rendered digits.
-/

/-- Python `x or default` for an optional numeric `x`: both `None` and `0.0`
are falsy, so the default is taken for `none` and for `some 0`. -/
def pyOr (x : Option ℚ) (default : ℚ) : ℚ :=
  match x with
  | none => default
  | some v => if v = 0 then default else v

/-! ## `src/utils/formatting.py` — Change Calculator -/

/-- The `direction` field of a `ChangeMetric` (`"up"`, `"down"`, `"neutral"`). -/
inductive Direction where
  | up
  | down
  | neutral
deriving DecidableEq, Repr

/-- `ChangeMetric` dataclass of `src/utils/formatting.py`.  The three
`formatted_*` string fields carry a simplified rendering (thousands
separators and fixed-decimal rounding are not modelled). -/
structure ChangeMetric where
  current : ℚ
  previous : ℚ
  change_pct : ℚ
  change_abs : ℚ
  direction : Direction
  is_significant : Bool
  is_anomaly : Bool
  formatted_change : String
  formatted_current : String
  formatted_previous : String
deriving DecidableEq, Repr

/-- `calculate_change` of `src/utils/formatting.py` (defaults:
`significant_threshold=10.0`, `anomaly_threshold=25.0`, `inverse=False`).
Division by zero never occurs: the `previous == 0` case is handled first. -/
def calculate_change (current previous : ℚ)
    (significant_threshold : ℚ := 10) (anomaly_threshold : ℚ := 25)
    (inverse : Bool := false) : ChangeMetric :=
  let change_pct : ℚ :=
    if previous = 0 then (if current = 0 then 0 else 100)
    else ((current - previous) / previous) * 100
  let change_abs := current - previous
  let direction : Direction :=
    if |change_pct| < 1/2 then .neutral
    else if change_pct > 0 then (if inverse then .down else .up)
    else (if inverse then .up else .down)
  let is_significant : Bool := |change_pct| ≥ significant_threshold
  let is_anomaly : Bool := |change_pct| ≥ anomaly_threshold
  let sign := if change_pct > 0 then "+" else ""
  { current := current
    previous := previous
    change_pct := change_pct
    change_abs := change_abs
    direction := direction
    is_significant := is_significant
    is_anomaly := is_anomaly
    formatted_change := sign ++ toString change_pct ++ "%"
    formatted_current := toString current
    formatted_previous := toString previous }

/-- C3: with `previous == 0`, `calculate_change` returns `change_pct = 0`
when `current == 0` and `100` otherwise; the function is total on `ℚ`
(never raises, and `ℚ` has no infinities), for any thresholds and either
`inverse` flag. -/
theorem calculate_change_zero_previous
    (current previous st at_ : ℚ) (inverse : Bool)
    (h : previous = 0) :
    (calculate_change current previous st at_ inverse).change_pct
      = (if current = 0 then 0 else 100) := by
  subst h
  simp [calculate_change]

theorem calculate_change_zero_previous_witness :
    ((0:ℚ) = 0) ∧
      (calculate_change 7 0 10 25 false).change_pct
        = (if (7:ℚ) = 0 then 0 else 100) :=
  ⟨rfl, calculate_change_zero_previous 7 0 10 25 false rfl⟩

/-- C4: the `direction` of a `ChangeMetric` is `neutral` exactly when
`|change_pct| < 0.5`; otherwise it follows the sign of `change_pct`,
flipped when `inverse` is set; and `inverse` never changes `change_pct`
itself. -/
theorem calculate_change_direction
    (current previous st at_ : ℚ) (inverse : Bool) :
    (let cm := calculate_change current previous st at_ inverse
     (cm.direction = .neutral ↔ |cm.change_pct| < 1/2) ∧
     (1/2 ≤ |cm.change_pct| →
        cm.direction =
          (if 0 < cm.change_pct then (if inverse then .down else .up)
           else (if inverse then .up else .down))) ∧
     (calculate_change current previous st at_ true).change_pct
       = (calculate_change current previous st at_ false).change_pct) := by
  have key : ∀ (p : ℚ) (inv : Bool),
      ((if |p| < 1/2 then Direction.neutral
        else if p > 0 then (if inv then Direction.down else Direction.up)
        else (if inv then Direction.up else Direction.down)) = Direction.neutral
         ↔ |p| < 1/2) ∧
      (1/2 ≤ |p| →
        (if |p| < 1/2 then Direction.neutral
         else if p > 0 then (if inv then Direction.down else Direction.up)
         else (if inv then Direction.up else Direction.down)) =
          (if 0 < p then (if inv then Direction.down else Direction.up)
           else (if inv then Direction.up else Direction.down))) := by
    intro p inv
    constructor
    · by_cases h : |p| < 1/2 <;> by_cases hp : p > 0 <;> cases inv <;> simp [h, hp]
    · intro hge
      have h : ¬ |p| < 1/2 := not_lt.mpr hge
      rw [if_neg h]
  simp only [calculate_change]
  exact ⟨(key _ inverse).1, (key _ inverse).2, by trivial⟩

theorem calculate_change_direction_witness :
    (let cm := calculate_change 110 100 10 25 false
     (cm.direction = .neutral ↔ |cm.change_pct| < 1/2) ∧
     (1/2 ≤ |cm.change_pct| →
        cm.direction =
          (if 0 < cm.change_pct then (if false then .down else .up)
           else (if false then .up else .down))) ∧
     (calculate_change 110 100 10 25 true).change_pct
       = (calculate_change 110 100 10 25 false).change_pct) :=
  calculate_change_direction 110 100 10 25 false

/-! ## `src/analysis/benchmarks.py` — Benchmark Comparator -/

/-- The `performance` field of a `BenchmarkComparison`
(`"above"`, `"below"`, `"at"`; `at` is a Lean keyword, hence `at_bench`). -/
inductive Performance where
  | above
  | below
  | at_bench
deriving DecidableEq, Repr

/-- One entry of the benchmark table (`value`, `unit`, `lower_is_better`,
`description`). -/
structure BenchmarkEntry where
  value : ℚ
  unit : String
  lower_is_better : Bool
  description : String
deriving DecidableEq, Repr

/-- `BenchmarkAnalyzer.DEFAULT_BENCHMARKS`: the static nonprofit benchmark
table of `src/analysis/benchmarks.py`. -/
def DEFAULT_BENCHMARKS : List (String × BenchmarkEntry) :=
  [ ("bounce_rate", ⟨55, "%", true, "Nonprofit average bounce rate"⟩),
    ("avg_session_duration", ⟨120, "seconds", false, "Nonprofit average session duration"⟩),
    ("pages_per_session", ⟨5/2, "pages", false, "Nonprofit average pages per session"⟩),
    ("organic_traffic_share", ⟨40, "%", false, "Typical organic search traffic share"⟩),
    ("direct_traffic_share", ⟨25, "%", false, "Typical direct traffic share"⟩),
    ("referral_traffic_share", ⟨15, "%", false, "Typical referral traffic share"⟩),
    ("social_traffic_share", ⟨10, "%", false, "Typical social media traffic share"⟩),
    ("new_visitor_rate", ⟨70, "%", false, "Typical new visitor percentage"⟩),
    ("mobile_traffic_share", ⟨55, "%", false, "Typical mobile traffic share"⟩),
    ("avg_search_position", ⟨15, "position", true, "Typical average search position"⟩),
    ("search_ctr", ⟨3, "%", false, "Typical search CTR"⟩),
    ("engagement_rate", ⟨55, "%", false, "GA4 engagement rate benchmark"⟩) ]

/-- `self.benchmarks.get(metric_name)`: lookup of a metric in the benchmark
table (an association list modelling the Python dict). -/
def benchLookup (benchmarks : List (String × BenchmarkEntry)) (metric_name : String) :
    Option BenchmarkEntry :=
  (benchmarks.find? (fun p => p.1 == metric_name)).map Prod.snd

/-- The `lower_is_better` flag the source reads via
`self.benchmarks.get(name, {}).get('lower_is_better', False)`
(used both inside `compare` and inside `get_benchmark_summary`). -/
def libOf (benchmarks : List (String × BenchmarkEntry)) (name : String) : Bool :=
  ((benchLookup benchmarks name).map (·.lower_is_better)).getD false

/-- Result of comparing a metric to benchmark (`BenchmarkComparison`
dataclass). -/
structure BenchmarkComparison where
  metric_name : String
  current_value : ℚ
  benchmark_value : ℚ
  difference : ℚ
  difference_pct : ℚ
  performance : Performance
  interpretation : String
deriving DecidableEq, Repr

/-- The `good_performance` condition of `BenchmarkAnalyzer._interpret`:
`(performance == "below" and lower_is_better) or
 (performance == "above" and not lower_is_better)`. -/
def good_performance (performance : Performance) (lower_is_better : Bool) : Bool :=
  (performance == .below && lower_is_better) || (performance == .above && !lower_is_better)

/-- `BenchmarkAnalyzer._interpret` (the three message templates; the numeric
interpolation is not modelled). -/
def interpret (performance : Performance) (lower_is_better : Bool) : String :=
  if performance == .at_bench then "Performing at industry benchmark"
  else if good_performance performance lower_is_better then "Outperforming benchmark"
  else "Below benchmark"

/-- The `# Determine performance` block of `BenchmarkAnalyzer.compare`:
the 5% dead-zone, then the sign of `difference` (the `lower_is_better`
branch only reverses the checked inequality, not the outcome). -/
def classify_performance (difference_pct difference : ℚ) (lower_is_better : Bool) : Performance :=
  if |difference_pct| < 5 then .at_bench
  else if lower_is_better then (if difference < 0 then .below else .above)
  else (if difference > 0 then .above else .below)

/-- `BenchmarkAnalyzer.compare`.  The guard mirrors
`if metric_name not in self.benchmarks and custom_benchmark is None`, the
benchmark value mirrors `custom_benchmark or benchmark_data.get('value', 0)`
(Python `or`: a `custom_benchmark` of `0.0` falls through to the table
value), and `difference_pct` mirrors
`(difference / benchmark_value * 100) if benchmark_value else 0`. -/
def BenchmarkAnalyzer.compare (benchmarks : List (String × BenchmarkEntry)) (metric_name : String)
    (current_value : ℚ) (custom_benchmark : Option ℚ) : Option BenchmarkComparison :=
  if (benchLookup benchmarks metric_name).isNone && custom_benchmark.isNone then none
  else
    let benchmark_data := benchLookup benchmarks metric_name
    let benchmark_value := pyOr custom_benchmark ((benchmark_data.map (·.value)).getD 0)
    let lower_is_better := ((benchmark_data.map (·.lower_is_better)).getD false)
    let difference := current_value - benchmark_value
    let difference_pct := if benchmark_value ≠ 0 then difference / benchmark_value * 100 else 0
    let performance : Performance := classify_performance difference_pct difference lower_is_better
    some { metric_name := metric_name
           current_value := current_value
           benchmark_value := benchmark_value
           difference := difference
           difference_pct := difference_pct
           performance := performance
           interpretation := interpret performance lower_is_better }

/-- `BenchmarkAnalyzer.analyze_all`: apply `compare` to each metric, dropping
the ones with no benchmark. -/
def analyze_all (benchmarks : List (String × BenchmarkEntry))
    (metrics : List (String × ℚ)) : List (String × BenchmarkComparison) :=
  metrics.filterMap (fun nv => (BenchmarkAnalyzer.compare benchmarks nv.1 nv.2 none).map (fun c => (nv.1, c)))

/-- The three bucket lists built by the loop of
`BenchmarkAnalyzer.get_benchmark_summary` (in iteration order:
outperforming, underperforming, at_benchmark). -/
def summaryBuckets (benchmarks : List (String × BenchmarkEntry)) :
    List (String × BenchmarkComparison) → List String × List String × List String
  | [] => ([], [], [])
  | (name, comp) :: rest =>
    let (ab, be, atb) := summaryBuckets benchmarks rest
    match comp.performance with
    | .above => if libOf benchmarks name then (ab, name :: be, atb) else (name :: ab, be, atb)
    | .below => if libOf benchmarks name then (name :: ab, be, atb) else (ab, name :: be, atb)
    | .at_bench => (ab, be, name :: atb)

/-- Return value of `get_benchmark_summary`. -/
structure BenchmarkSummary where
  outperforming : List String
  underperforming : List String
  at_benchmark : List String
  outperforming_count : ℕ
  underperforming_count : ℕ
  at_benchmark_count : ℕ
  total_compared : ℕ
deriving DecidableEq, Repr

/-- `BenchmarkAnalyzer.get_benchmark_summary`. -/
def get_benchmark_summary (benchmarks : List (String × BenchmarkEntry))
    (comparisons : List (String × BenchmarkComparison)) : BenchmarkSummary :=
  let (ab, be, atb) := summaryBuckets benchmarks comparisons
  { outperforming := ab
    underperforming := be
    at_benchmark := atb
    outperforming_count := ab.length
    underperforming_count := be.length
    at_benchmark_count := atb.length
    total_compared := comparisons.length }

/-- A successful table lookup comes from a table entry. -/
lemma benchLookup_mem {benchmarks : List (String × BenchmarkEntry)}
    {name : String} {e : BenchmarkEntry}
    (h : benchLookup benchmarks name = some e) : ∃ k, (k, e) ∈ benchmarks := by
  unfold benchLookup at h
  obtain ⟨p, hf, hpe⟩ := Option.map_eq_some'.mp h
  subst hpe
  exact ⟨p.1, by simpa using List.mem_of_find?_eq_some hf⟩

/-- Every value in the default benchmark table is positive. -/
lemma default_benchmarks_pos : ∀ p ∈ DEFAULT_BENCHMARKS, 0 < p.2.value := by
  intro p hp
  fin_cases hp <;> norm_num

/-- Characterization of `classify_performance` when `difference_pct` and
`difference` agree in sign. -/
lemma classify_performance_iff (pct d : ℚ) (lib : Bool)
    (hsp : 0 < d ↔ 0 < pct) (hsn : d < 0 ↔ pct < 0) :
    (classify_performance pct d lib = .at_bench ↔ |pct| < 5) ∧
    (classify_performance pct d lib = .above ↔ 5 ≤ |pct| ∧ 0 < d) ∧
    (classify_performance pct d lib = .below ↔ 5 ≤ |pct| ∧ d < 0) := by
  unfold classify_performance
  by_cases h5 : |pct| < 5
  · simp [h5, not_le.mpr h5]
  · have habs : 5 ≤ |pct| := not_lt.mp h5
    have hpne : pct ≠ 0 := by
      intro h0
      rw [h0, abs_zero] at habs
      linarith
    rw [if_neg h5]
    rcases lt_trichotomy pct 0 with hneg | hzero | hposq
    · have hd : d < 0 := hsn.mpr hneg
      cases lib <;> simp [hd, habs, asymm hd, not_lt.mpr (le_of_lt hd)]
    · exact absurd hzero hpne
    · have hd : 0 < d := hsp.mpr hposq
      cases lib <;> simp [hd, habs, asymm hd, not_lt.mpr (le_of_lt hd)]

/-- C1: for a metric present in the benchmark table and any current value,
`compare` computes `difference = current - benchmark`,
`difference_pct = difference / benchmark * 100`, classifies `at` exactly when
`|difference_pct| < 5` (so `difference_pct = 5` is not `at`), and otherwise
classifies `above` exactly when `difference > 0` and `below` exactly when
`difference < 0`, independently of `lower_is_better`. -/
theorem compare_classification (name : String) (e : BenchmarkEntry) (v : ℚ)
    (hlook : benchLookup DEFAULT_BENCHMARKS name = some e) :
    ∃ comp, BenchmarkAnalyzer.compare DEFAULT_BENCHMARKS name v none = some comp ∧
      comp.difference = v - e.value ∧
      comp.difference_pct = (v - e.value) / e.value * 100 ∧
      (comp.performance = .at_bench ↔ |comp.difference_pct| < 5) ∧
      (comp.performance = .above ↔ 5 ≤ |comp.difference_pct| ∧ 0 < comp.difference) ∧
      (comp.performance = .below ↔ 5 ≤ |comp.difference_pct| ∧ comp.difference < 0) := by
  obtain ⟨k, hmem⟩ := benchLookup_mem hlook
  have hpos : 0 < e.value := default_benchmarks_pos (k, e) hmem
  have hne : e.value ≠ 0 := ne_of_gt hpos
  have hsp : 0 < v - e.value ↔ 0 < (v - e.value) / e.value * 100 := by
    rw [div_mul_eq_mul_div, lt_div_iff₀ hpos]
    constructor <;> intro h <;> nlinarith
  have hsn : v - e.value < 0 ↔ (v - e.value) / e.value * 100 < 0 := by
    rw [div_mul_eq_mul_div, div_lt_iff₀ hpos]
    constructor <;> intro h <;> nlinarith
  have hcomp : BenchmarkAnalyzer.compare DEFAULT_BENCHMARKS name v none =
      some { metric_name := name
             current_value := v
             benchmark_value := e.value
             difference := v - e.value
             difference_pct := (v - e.value) / e.value * 100
             performance := classify_performance ((v - e.value) / e.value * 100)
                              (v - e.value) e.lower_is_better
             interpretation := interpret
                                 (classify_performance ((v - e.value) / e.value * 100)
                                   (v - e.value) e.lower_is_better)
                                 e.lower_is_better } := by
    simp only [BenchmarkAnalyzer.compare, hlook]
    simp [pyOr, hne]
  obtain ⟨h1, h2, h3⟩ := classify_performance_iff ((v - e.value) / e.value * 100)
    (v - e.value) e.lower_is_better hsp hsn
  exact ⟨_, hcomp, rfl, rfl, h1, h2, h3⟩

theorem compare_classification_witness :
    (benchLookup DEFAULT_BENCHMARKS "bounce_rate"
        = some ⟨55, "%", true, "Nonprofit average bounce rate"⟩) ∧
      (∃ comp, BenchmarkAnalyzer.compare DEFAULT_BENCHMARKS "bounce_rate" 70 none = some comp ∧
        comp.difference = 70 - (55:ℚ) ∧
        comp.difference_pct = (70 - (55:ℚ)) / 55 * 100 ∧
        (comp.performance = .at_bench ↔ |comp.difference_pct| < 5) ∧
        (comp.performance = .above ↔ 5 ≤ |comp.difference_pct| ∧ 0 < comp.difference) ∧
        (comp.performance = .below ↔ 5 ≤ |comp.difference_pct| ∧ comp.difference < 0)) :=
  ⟨rfl, compare_classification "bounce_rate" ⟨55, "%", true, "Nonprofit average bounce rate"⟩ 70 rfl⟩

/-- Every name in a summary bucket is a key of the comparisons map. -/
lemma summaryBuckets_subset_keys (bs : List (String × BenchmarkEntry)) :
    ∀ (comps : List (String × BenchmarkComparison)) (x : String),
      (x ∈ (summaryBuckets bs comps).1 → x ∈ comps.map Prod.fst) ∧
      (x ∈ (summaryBuckets bs comps).2.1 → x ∈ comps.map Prod.fst) ∧
      (x ∈ (summaryBuckets bs comps).2.2 → x ∈ comps.map Prod.fst) := by
  intro comps
  induction comps with
  | nil => intro x; simp [summaryBuckets]
  | cons hd rest ih =>
    intro x
    obtain ⟨n, c⟩ := hd
    have ihx := ih x
    rcases hperf : c.performance <;> cases hlib : libOf bs n <;>
      simp [summaryBuckets, hperf, hlib, -List.mem_map] <;> tauto

/-- Membership of a key in the three buckets of `get_benchmark_summary`,
for a comparisons map with distinct keys (as any Python dict has). -/
lemma summaryBuckets_mem_iff (bs : List (String × BenchmarkEntry)) :
    ∀ (comps : List (String × BenchmarkComparison)),
      (comps.map Prod.fst).Nodup →
      ∀ name comp, (name, comp) ∈ comps →
        (name ∈ (summaryBuckets bs comps).1 ↔
          good_performance comp.performance (libOf bs name) = true) ∧
        (name ∈ (summaryBuckets bs comps).2.1 ↔
          (comp.performance ≠ .at_bench ∧
            good_performance comp.performance (libOf bs name) = false)) ∧
        (name ∈ (summaryBuckets bs comps).2.2 ↔ comp.performance = .at_bench) := by
  intro comps
  induction comps with
  | nil => intro _ name comp hmem; simp at hmem
  | cons hd rest ih =>
    obtain ⟨n, c⟩ := hd
    intro hnd name comp hmem
    have hcons := List.nodup_cons.mp
      (show (n :: rest.map Prod.fst).Nodup from hnd)
    have hn_not : n ∉ rest.map Prod.fst := hcons.1
    have hnd' : (rest.map Prod.fst).Nodup := hcons.2
    rcases List.mem_cons.mp hmem with heq | htail
    · injection heq with h1 h2
      subst h1
      subst h2
      have hs := summaryBuckets_subset_keys bs rest name
      have hnotin1 : name ∉ (summaryBuckets bs rest).1 := fun hx => hn_not (hs.1 hx)
      have hnotin2 : name ∉ (summaryBuckets bs rest).2.1 := fun hx => hn_not (hs.2.1 hx)
      have hnotin3 : name ∉ (summaryBuckets bs rest).2.2 := fun hx => hn_not (hs.2.2 hx)
      rcases hperf : comp.performance <;> cases hlib : libOf bs name <;>
        simp [summaryBuckets, hperf, hlib, good_performance, hnotin1, hnotin2, hnotin3]
    · have hname_in : name ∈ rest.map Prod.fst := List.mem_map_of_mem Prod.fst htail
      have hne : name ≠ n := fun h => hn_not (h ▸ hname_in)
      have htl := ih hnd' name comp htail
      rcases hperf : c.performance <;> cases hlib : libOf bs n <;>
        simpa [summaryBuckets, hperf, hlib, hne] using htl

/-- The record fields of `get_benchmark_summary` are the three buckets. -/
lemma get_benchmark_summary_eq (bs : List (String × BenchmarkEntry))
    (comps : List (String × BenchmarkComparison)) :
    (get_benchmark_summary bs comps).outperforming = (summaryBuckets bs comps).1 ∧
    (get_benchmark_summary bs comps).underperforming = (summaryBuckets bs comps).2.1 ∧
    (get_benchmark_summary bs comps).at_benchmark = (summaryBuckets bs comps).2.2 := by
  rcases h : summaryBuckets bs comps with ⟨ab, be, atb⟩
  simp [get_benchmark_summary, h]

/-- C2: `get_benchmark_summary` buckets a metric into `outperforming`
exactly when the `good_performance` rule of `_interpret` holds for it
(`performance == below ∧ lower_is_better` or
`performance == above ∧ ¬lower_is_better`), and into `underperforming`
exactly in the opposite non-`at` case; concretely, `bounce_rate = 70`
against benchmark 55 (`lower_is_better = true`) is classified `above` yet
bucketed into `underperforming`, not `outperforming`. -/
theorem get_benchmark_summary_consistent :
    (∀ (comps : List (String × BenchmarkComparison)),
        (comps.map Prod.fst).Nodup →
        ∀ name comp, (name, comp) ∈ comps →
          ((name ∈ (get_benchmark_summary DEFAULT_BENCHMARKS comps).outperforming ↔
              good_performance comp.performance (libOf DEFAULT_BENCHMARKS name) = true) ∧
           (name ∈ (get_benchmark_summary DEFAULT_BENCHMARKS comps).underperforming ↔
              (comp.performance ≠ .at_bench ∧
                good_performance comp.performance (libOf DEFAULT_BENCHMARKS name) = false)))) ∧
    (∃ comp, BenchmarkAnalyzer.compare DEFAULT_BENCHMARKS "bounce_rate" 70 none = some comp ∧
        comp.performance = .above ∧
        (get_benchmark_summary DEFAULT_BENCHMARKS
            [("bounce_rate", comp)]).underperforming = ["bounce_rate"] ∧
        (get_benchmark_summary DEFAULT_BENCHMARKS
            [("bounce_rate", comp)]).outperforming = []) := by
  constructor
  · intro comps hnd name comp hmem
    obtain ⟨he1, he2, he3⟩ := get_benchmark_summary_eq DEFAULT_BENCHMARKS comps
    obtain ⟨h1, h2, h3⟩ := summaryBuckets_mem_iff DEFAULT_BENCHMARKS comps hnd name comp hmem
    rw [he1, he2]
    exact ⟨h1, h2⟩
  · refine ⟨⟨"bounce_rate", 70, 55, 15, 300/11, .above, "Below benchmark"⟩, ?_, rfl, ?_, ?_⟩
    · have hlook : benchLookup DEFAULT_BENCHMARKS "bounce_rate"
          = some ⟨55, "%", true, "Nonprofit average bounce rate"⟩ := rfl
      have hc0 : ((55:ℚ)) ≠ 0 := by norm_num
      have hc1 : ¬ (|((70:ℚ) - 55) / 55 * 100| < 5) := by
        have h : ((70:ℚ) - 55) / 55 * 100 = 300/11 := by norm_num
        rw [h, abs_of_nonneg (by norm_num)]
        norm_num
      have hc2 : ¬ (((70:ℚ) - 55) < 0) := by norm_num
      simp only [BenchmarkAnalyzer.compare, hlook]
      simp [pyOr, classify_performance, interpret, good_performance, hc0, hc1, hc2]
      norm_num
    · have hlib : libOf DEFAULT_BENCHMARKS "bounce_rate" = true := rfl
      simp [get_benchmark_summary, summaryBuckets, hlib]
    · have hlib : libOf DEFAULT_BENCHMARKS "bounce_rate" = true := rfl
      simp [get_benchmark_summary, summaryBuckets, hlib]

/-- The comparison record produced for `bounce_rate = 70` against the default
table (used to instantiate the summary-bucket theorem). -/
def bounceComp : BenchmarkComparison :=
  ⟨"bounce_rate", 70, 55, 15, 300/11, .above, "Below benchmark"⟩

theorem get_benchmark_summary_consistent_witness :
    (([("bounce_rate", bounceComp)].map Prod.fst).Nodup ∧
      ("bounce_rate", bounceComp) ∈ [("bounce_rate", bounceComp)]) ∧
    (("bounce_rate" ∈ (get_benchmark_summary DEFAULT_BENCHMARKS
          [("bounce_rate", bounceComp)]).outperforming ↔
        good_performance bounceComp.performance
          (libOf DEFAULT_BENCHMARKS "bounce_rate") = true) ∧
      ("bounce_rate" ∈ (get_benchmark_summary DEFAULT_BENCHMARKS
          [("bounce_rate", bounceComp)]).underperforming ↔
        (bounceComp.performance ≠ .at_bench ∧
          good_performance bounceComp.performance
            (libOf DEFAULT_BENCHMARKS "bounce_rate") = false))) :=
  ⟨⟨by simp, by simp⟩,
    get_benchmark_summary_consistent.1 [("bounce_rate", bounceComp)]
      (by simp) "bounce_rate" bounceComp (by simp)⟩

/-- C10: a `custom_benchmark` of `0.0` is falsy in the Python `or`, so for a
metric in the table `compare` behaves exactly as with no custom benchmark;
for a metric absent from the table, `compare(…, custom_benchmark=0.0)` does
not return `None` but a comparison with benchmark value 0, `difference_pct`
0 and performance `at`. -/
theorem compare_zero_custom_benchmark :
    (∀ (name : String) (e : BenchmarkEntry) (v : ℚ),
        benchLookup DEFAULT_BENCHMARKS name = some e →
        BenchmarkAnalyzer.compare DEFAULT_BENCHMARKS name v (some 0)
          = BenchmarkAnalyzer.compare DEFAULT_BENCHMARKS name v none) ∧
    (∀ (name : String) (v : ℚ),
        benchLookup DEFAULT_BENCHMARKS name = none →
        BenchmarkAnalyzer.compare DEFAULT_BENCHMARKS name v (some 0)
          = some { metric_name := name
                   current_value := v
                   benchmark_value := 0
                   difference := v - 0
                   difference_pct := 0
                   performance := .at_bench
                   interpretation := interpret .at_bench false }) := by
  constructor
  · intro name e v hlook
    simp [BenchmarkAnalyzer.compare, hlook, pyOr]
  · intro name v hlook
    simp only [BenchmarkAnalyzer.compare, hlook]
    norm_num [pyOr, classify_performance]

theorem compare_zero_custom_benchmark_witness :
    ((benchLookup DEFAULT_BENCHMARKS "bounce_rate"
        = some ⟨55, "%", true, "Nonprofit average bounce rate"⟩) ∧
      BenchmarkAnalyzer.compare DEFAULT_BENCHMARKS "bounce_rate" 70 (some 0)
        = BenchmarkAnalyzer.compare DEFAULT_BENCHMARKS "bounce_rate" 70 none) ∧
    ((benchLookup DEFAULT_BENCHMARKS "made_up_metric" = none) ∧
      BenchmarkAnalyzer.compare DEFAULT_BENCHMARKS "made_up_metric" 12 (some 0)
        = some { metric_name := "made_up_metric"
                 current_value := 12
                 benchmark_value := 0
                 difference := 12 - 0
                 difference_pct := 0
                 performance := .at_bench
                 interpretation := interpret .at_bench false }) :=
  ⟨⟨rfl, compare_zero_custom_benchmark.1 "bounce_rate"
      ⟨55, "%", true, "Nonprofit average bounce rate"⟩ 70 rfl⟩,
    ⟨rfl, compare_zero_custom_benchmark.2 "made_up_metric" 12 rfl⟩⟩

/-! ## `src/analysis/trends.py` — Trend Analyzer

The value column of the input DataFrame is modelled as a `List ℚ` (for
`analyze_trend`) or a `List (String × ℚ)` of `(date, value)` rows (for
`detect_anomalies`); `np.arange(len(values))` is the index `0, 1, …, n-1`.
`np.std` is the population standard deviation `√(popVar)`; comparisons
against it are encoded square-free over `ℚ` and related to the `Real.sqrt`
form by the bridge lemmas below. -/

/-- The `direction` field of a `TrendResult`. -/
inductive TrendDirection where
  | increasing
  | decreasing
  | stable
  | volatile
deriving DecidableEq, Repr

/-- `TrendResult` dataclass (note: the source stores the *relative* slope in
the `slope` field). -/
structure TrendResult where
  direction : TrendDirection
  strength : ℚ
  slope : ℚ
  description : String
  significant : Bool
deriving DecidableEq, Repr

/-- `np.mean(values)` (total order of evaluation irrelevant over `ℚ`). -/
def listMean (vs : List ℚ) : ℚ := vs.sum / vs.length

/-- `ss_tot = np.sum((values - np.mean(values)) ** 2)`. -/
def ssTot (vs : List ℚ) : ℚ := (vs.map (fun v => (v - listMean vs)^2)).sum

/-- `np.std(values) ** 2`, the population variance (`np.std` uses `ddof=0`). -/
def popVar (vs : List ℚ) : ℚ := ssTot vs / vs.length

/-- Indexed sum `Σ_i f i v_i` over a list, indexes starting at the first
argument (models sums over `np.arange(len(values))`). -/
def idxSum (f : ℕ → ℚ → ℚ) : ℕ → List ℚ → ℚ
  | _, [] => 0
  | i, v :: rest => f i v + idxSum f (i + 1) rest

/-- The least-squares slope of `np.polyfit(x, values, 1)` with
`x = 0 … n-1`, in closed normal-equation form
`Σ(x-x̄)(y-ȳ) / Σ(x-x̄)²` (`x̄ = (n-1)/2`). -/
def olsSlope (vs : List ℚ) : ℚ :=
  let xbar : ℚ := ((vs.length : ℚ) - 1) / 2
  let ybar := listMean vs
  idxSum (fun i v => ((i : ℚ) - xbar) * (v - ybar)) 0 vs /
    idxSum (fun i _ => ((i : ℚ) - xbar)^2) 0 vs

/-- The least-squares intercept of `np.polyfit(x, values, 1)`. -/
def olsIntercept (vs : List ℚ) : ℚ :=
  listMean vs - olsSlope vs * (((vs.length : ℚ) - 1) / 2)

/-- `ss_res = np.sum((values - y_pred) ** 2)` with
`y_pred = slope * x + intercept`. -/
def ssRes (vs : List ℚ) : ℚ :=
  idxSum (fun i v => (v - (olsSlope vs * (i : ℚ) + olsIntercept vs))^2) 0 vs

/-- `r_squared = 1 - ss_res / ss_tot if ss_tot > 0 else 0`. -/
def rSquared (vs : List ℚ) : ℚ :=
  if ssTot vs > 0 then 1 - ssRes vs / ssTot vs else 0

/-- `relative_slope = (slope / mean_value * 100) if mean_value != 0 else 0`. -/
def relativeSlope (vs : List ℚ) : ℚ :=
  if listMean vs ≠ 0 then olsSlope vs / listMean vs * 100 else 0

/-- The volatility test `cv > 0.5` where
`cv = np.std(values) / mean_value if mean_value != 0 else 0`, encoded
square-free: for `mean ≠ 0`, `√var / mean > 1/2` iff
`0 < mean ∧ mean² < 4·var` (see `cv_gt_half_iff`); for `mean = 0` the source
sets `cv = 0`, which is not `> 0.5`. -/
def cvGtHalf (vs : List ℚ) : Bool :=
  decide (0 < listMean vs ∧ (listMean vs)^2 < 4 * popVar vs)

/-- Templated `description` of a `TrendResult` (numeric interpolation not
modelled). -/
def trendDescription (d : TrendDirection) : String :=
  match d with
  | .stable => "Metric remained relatively stable"
  | .volatile => "High volatility detected"
  | .increasing => "Metric increased by approximately"
  | .decreasing => "Metric decreased by approximately"

/-- `TrendAnalyzer.analyze_trend`.  The `< 3` guard returns the fixed
insufficient-data result; the `np.polyfit` `try/except` branch is
unreachable in the closed-form embedding (the fit is total); the volatility
check overrides the slope-derived direction. -/
def analyze_trend (vs : List ℚ) : TrendResult :=
  if vs.length < 3 then
    { direction := .stable
      strength := 0
      slope := 0
      description := "Insufficient data for trend analysis"
      significant := false }
  else
    let r_squared := rSquared vs
    let relative_slope := relativeSlope vs
    let dir0 : TrendDirection :=
      if |relative_slope| < 1 then .stable
      else if olsSlope vs > 0 then .increasing
      else .decreasing
    let direction := if cvGtHalf vs then .volatile else dir0
    { direction := direction
      strength := r_squared
      slope := relative_slope
      description := trendDescription direction
      significant := decide (|relative_slope| > 5 ∧ r_squared > 3/10) }

/-- The `type` field of an `AnomalyResult` (`"spike"`/`"drop"`). -/
inductive AnomalyType where
  | spike
  | drop
deriving DecidableEq, Repr

/-- `AnomalyResult` dataclass.  The `metric` column name and the
`expected_range = (mean - std, mean + std)` field are omitted: the latter is
irrational (`std = √var`) and no claim concerns either. -/
structure AnomalyResult where
  date : String
  value : ℚ
  deviation_pct : ℚ
  type : AnomalyType
deriving DecidableEq, Repr

/-- The test `deviation > threshold` with `threshold = sensitivity * std`
and `std = √var`, encoded square-free: for `deviation ≥ 0` and `var > 0`
it is equivalent to `sens < 0 ∨ sens² · var < deviation²` (see
`exceedsThreshold_iff`). -/
def exceedsThreshold (deviation sens var : ℚ) : Bool :=
  if sens < 0 then true else decide (sens^2 * var < deviation^2)

/-- `deviation_pct = (value - mean) / mean * 100 if mean != 0 else 0`. -/
def devPct (mean v : ℚ) : ℚ :=
  if mean ≠ 0 then (v - mean) / mean * 100 else 0

/-- `TrendAnalyzer.detect_anomalies` (`sensitivity` is the analyzer's
constructor argument, default `2.0`).  Guards: fewer than 5 points, or zero
standard deviation (`std = √var = 0` iff `var = 0`), give `[]`;
`min_deviation or (self.sensitivity * 50)` is Python `or` (`pyOr`). -/
def detect_anomalies (sensitivity : ℚ) (rows : List (String × ℚ))
    (min_deviation : Option ℚ) : List AnomalyResult :=
  if rows.length < 5 then []
  else
    let values := rows.map Prod.snd
    let mean_val := listMean values
    let var := popVar values
    if var = 0 then []
    else
      let md := pyOr min_deviation (sensitivity * 50)
      rows.filterMap (fun r =>
        if exceedsThreshold (|r.2 - mean_val|) sensitivity var then
          (if md ≤ |devPct mean_val r.2| then
            some { date := r.1
                   value := r.2
                   deviation_pct := devPct mean_val r.2
                   type := if r.2 > mean_val then .spike else .drop }
          else none)
        else none)

/-- The population variance is nonnegative. -/
lemma popVar_nonneg (vs : List ℚ) : 0 ≤ popVar vs := by
  unfold popVar ssTot
  apply div_nonneg
  · apply List.sum_nonneg
    intro x hx
    obtain ⟨v, _, rfl⟩ := List.mem_map.mp hx
    positivity
  · positivity

/-- Bridge: the square-free volatility test agrees with
`√var / mean > 0.5` over the reals (division by zero yielding 0 on both
sides, matching the source's `cv = 0` convention for `mean == 0`). -/
lemma cv_gt_half_iff (v m : ℚ) (hv : 0 ≤ v) :
    (1/2 : ℝ) < Real.sqrt (v : ℝ) / (m : ℝ) ↔ (0 < m ∧ m^2 < 4 * v) := by
  rcases lt_trichotomy (m : ℝ) 0 with hm | hm | hm
  · have hle : Real.sqrt (v : ℝ) / (m : ℝ) ≤ 0 :=
      div_nonpos_of_nonneg_of_nonpos (Real.sqrt_nonneg _) (le_of_lt hm)
    have hmq : ¬ (0 < m) := by
      intro h
      exact absurd (by exact_mod_cast h : (0:ℝ) < (m:ℝ)) (asymm hm)
    constructor
    · intro h; linarith
    · rintro ⟨h1, _⟩; exact absurd h1 hmq
  · have hm0 : (m : ℝ) = 0 := hm
    have hmq : m = 0 := by exact_mod_cast hm0
    rw [hm0, div_zero]
    constructor
    · intro h; linarith
    · rintro ⟨h1, _⟩; rw [hmq] at h1; exact absurd h1 (lt_irrefl 0)
  · have hmq : 0 < m := by exact_mod_cast hm
    have h2 : (0:ℝ) ≤ 1/2 * (m : ℝ) := by positivity
    have hvr : (0:ℝ) ≤ (v : ℝ) := by exact_mod_cast hv
    rw [lt_div_iff₀ hm, Real.lt_sqrt h2]
    constructor
    · intro h
      refine ⟨hmq, ?_⟩
      have : (m : ℝ)^2 < 4 * (v : ℝ) := by nlinarith
      exact_mod_cast this
    · intro ⟨_, h⟩
      have : (m : ℝ)^2 < 4 * (v : ℝ) := by exact_mod_cast h
      nlinarith

/-- Bridge: `exceedsThreshold` agrees with
`deviation > sensitivity * √var` over the reals, for a nonnegative
deviation and positive variance. -/
lemma exceedsThreshold_iff (dev sens var : ℚ) (hd : 0 ≤ dev) (hv : 0 < var) :
    exceedsThreshold dev sens var = true ↔
      (sens : ℝ) * Real.sqrt (var : ℝ) < (dev : ℝ) := by
  unfold exceedsThreshold
  have hvr : (0:ℝ) < (var : ℝ) := by exact_mod_cast hv
  have hdr : (0:ℝ) ≤ (dev : ℝ) := by exact_mod_cast hd
  have hsqv : (0:ℝ) < Real.sqrt (var : ℝ) := Real.sqrt_pos.mpr hvr
  rcases lt_or_le sens 0 with hs | hs
  · have hsr : (sens : ℝ) < 0 := by exact_mod_cast hs
    have : (sens : ℝ) * Real.sqrt (var : ℝ) < 0 := mul_neg_of_neg_of_pos hsr hsqv
    simp only [if_pos hs]
    constructor
    · intro _; linarith
    · intro _; trivial
  · have hsr : (0:ℝ) ≤ (sens : ℝ) := by exact_mod_cast hs
    have hlhs : (0:ℝ) ≤ (sens : ℝ) * Real.sqrt (var : ℝ) :=
      mul_nonneg hsr (le_of_lt hsqv)
    have hsq : ((sens : ℝ) * Real.sqrt (var : ℝ))^2 = (sens : ℝ)^2 * (var : ℝ) := by
      rw [mul_pow, Real.sq_sqrt (le_of_lt hvr)]
    rw [if_neg (not_lt.mpr hs)]
    simp only [decide_eq_true_eq]
    constructor
    · intro h
      have hR : (sens : ℝ)^2 * (var : ℝ) < (dev : ℝ)^2 := by exact_mod_cast h
      exact lt_of_pow_lt_pow_left₀ 2 hdr
        (by rw [hsq]; exact hR :
          ((sens : ℝ) * Real.sqrt (var : ℝ))^2 < (dev : ℝ)^2)
    · intro h
      have h2 : ((sens : ℝ) * Real.sqrt (var : ℝ))^2 < (dev : ℝ)^2 :=
        pow_lt_pow_left₀ h hlhs (by norm_num)
      rw [hsq] at h2
      exact_mod_cast h2

/-- C7: for series of at least 3 points, `analyze_trend` picks `volatile`
when `std/mean > 0.5` (overriding the slope-based direction), else `stable`
when `|relative_slope| < 1`, else `increasing`/`decreasing` by the sign of
the OLS slope; `significant` holds iff `|relative_slope| > 5` and
`R² > 0.3`; and `[10,20,30,40,50]` gives `increasing`, `R² = 1`,
`significant = true`. -/
theorem analyze_trend_spec :
    (∀ (vs : List ℚ), 3 ≤ vs.length →
      ((analyze_trend vs).direction = .volatile ↔
          (1/2 : ℝ) < Real.sqrt ((popVar vs : ℚ) : ℝ) / ((listMean vs : ℚ) : ℝ)) ∧
      (¬ ((1/2 : ℝ) < Real.sqrt ((popVar vs : ℚ) : ℝ) / ((listMean vs : ℚ) : ℝ)) →
        ((analyze_trend vs).direction = .stable ↔ |relativeSlope vs| < 1) ∧
        (1 ≤ |relativeSlope vs| →
          ((analyze_trend vs).direction = .increasing ↔ 0 < olsSlope vs) ∧
          ((analyze_trend vs).direction = .decreasing ↔ olsSlope vs < 0))) ∧
      ((analyze_trend vs).significant = true ↔
        (5 < |relativeSlope vs| ∧ 3/10 < rSquared vs)) ∧
      (analyze_trend vs).strength = rSquared vs) ∧
    ((analyze_trend [(10:ℚ), 20, 30, 40, 50]).direction = .increasing ∧
      (analyze_trend [(10:ℚ), 20, 30, 40, 50]).strength = 1 ∧
      (analyze_trend [(10:ℚ), 20, 30, 40, 50]).significant = true) := by
  constructor
  · intro vs h3
    have hlen : ¬ vs.length < 3 := not_lt.mpr h3
    have hcvb : cvGtHalf vs = true ↔
        ((1/2 : ℝ) < Real.sqrt ((popVar vs : ℚ) : ℝ) / ((listMean vs : ℚ) : ℝ)) := by
      rw [cvGtHalf, decide_eq_true_eq]
      exact (cv_gt_half_iff (popVar vs) (listMean vs) (popVar_nonneg vs)).symm
    simp only [analyze_trend, if_neg hlen]
    by_cases hb : cvGtHalf vs = true
    · refine ⟨?_, ?_, ?_, by trivial⟩
      · rw [if_pos hb]
        simp only [true_iff]
        exact hcvb.mp hb
      · intro hnreal
        exact absurd (hcvb.mp hb) hnreal
      · rw [decide_eq_true_eq]
    · have hbf : cvGtHalf vs = false := Bool.eq_false_iff.mpr hb
      refine ⟨?_, ?_, ?_, by trivial⟩
      · rw [if_neg hb]
        constructor
        · intro hd
          by_cases h1 : |relativeSlope vs| < 1
          · rw [if_pos h1] at hd; exact absurd hd (by simp)
          · rw [if_neg h1] at hd
            by_cases hsl : olsSlope vs > 0
            · rw [if_pos hsl] at hd; exact absurd hd (by simp)
            · rw [if_neg hsl] at hd; exact absurd hd (by simp)
        · intro hreal
          exact absurd (hcvb.mpr hreal) hb
      · intro _
        rw [if_neg hb]
        constructor
        · by_cases h1 : |relativeSlope vs| < 1
          · rw [if_pos h1]; simp [h1]
          · rw [if_neg h1]
            by_cases hsl : olsSlope vs > 0
            · rw [if_pos hsl]; simp [h1]
            · rw [if_neg hsl]; simp [h1]
        · intro hge
          have h1 : ¬ |relativeSlope vs| < 1 := not_lt.mpr hge
          have hrne : relativeSlope vs ≠ 0 := by
            intro h0
            rw [h0, abs_zero] at hge
            linarith
          have hsne : olsSlope vs ≠ 0 := by
            intro h0
            apply hrne
            unfold relativeSlope
            by_cases hm : listMean vs ≠ 0
            · rw [if_pos hm, h0, zero_div, zero_mul]
            · rw [if_neg hm]
          rw [if_neg h1]
          by_cases hsl : olsSlope vs > 0
          · rw [if_pos hsl]
            refine ⟨⟨fun _ => hsl, fun _ => rfl⟩, ?_, ?_⟩
            · intro hcontra; exact absurd hcontra (by simp)
            · intro hneg; exact absurd hsl (asymm hneg)
          · rw [if_neg hsl]
            have hlt : olsSlope vs < 0 :=
              lt_of_le_of_ne (not_lt.mp hsl) hsne
            refine ⟨⟨?_, ?_⟩, fun _ => hlt, fun _ => rfl⟩
            · intro hcontra; exact absurd hcontra (by simp)
            · intro hpos; exact absurd hpos hsl
      · rw [decide_eq_true_eq]
  · have e1 : listMean [(10:ℚ), 20, 30, 40, 50] = 30 := by
      norm_num [listMean, List.sum_cons, List.sum_nil]
    have e2 : olsSlope [(10:ℚ), 20, 30, 40, 50] = 10 := by
      norm_num [olsSlope, idxSum, listMean, List.sum_cons, List.sum_nil]
    have e3 : olsIntercept [(10:ℚ), 20, 30, 40, 50] = 10 := by
      norm_num [olsIntercept, e1, e2]
    have e4 : ssTot [(10:ℚ), 20, 30, 40, 50] = 1000 := by
      norm_num [ssTot, e1, List.map_cons, List.map_nil, List.sum_cons, List.sum_nil]
    have e5 : ssRes [(10:ℚ), 20, 30, 40, 50] = 0 := by
      norm_num [ssRes, idxSum, e2, e3]
    have e6 : rSquared [(10:ℚ), 20, 30, 40, 50] = 1 := by
      norm_num [rSquared, e4, e5]
    have e7 : relativeSlope [(10:ℚ), 20, 30, 40, 50] = 100/3 := by
      norm_num [relativeSlope, e1, e2]
    have e8 : cvGtHalf [(10:ℚ), 20, 30, 40, 50] = false := by
      have hv : popVar [(10:ℚ), 20, 30, 40, 50] = 200 := by
        norm_num [popVar, e4]
      simp only [cvGtHalf, e1, hv, decide_eq_false_iff_not]
      norm_num
    have habs : |(100:ℚ)/3| = 100/3 := abs_of_nonneg (by norm_num)
    have hlen : ¬ ([(10:ℚ), 20, 30, 40, 50].length < 3) := by simp
    refine ⟨?_, ?_, ?_⟩
    · simp only [analyze_trend, if_neg hlen, e2, e7, e8, Bool.false_eq_true, if_false]
      norm_num [habs]
    · simp only [analyze_trend, if_neg hlen]
      exact e6
    · simp only [analyze_trend, if_neg hlen, e6, e7]
      rw [decide_eq_true_eq]
      exact ⟨by rw [habs]; norm_num, by norm_num⟩

theorem analyze_trend_spec_witness :
    ((analyze_trend [(1:ℚ), 2, 3]).direction = .volatile ↔
        (1/2 : ℝ) < Real.sqrt ((popVar [(1:ℚ), 2, 3] : ℚ) : ℝ)
          / ((listMean [(1:ℚ), 2, 3] : ℚ) : ℝ)) ∧
      ((analyze_trend [(1:ℚ), 2, 3]).significant = true ↔
        (5 < |relativeSlope [(1:ℚ), 2, 3]| ∧ 3/10 < rSquared [(1:ℚ), 2, 3])) :=
  ⟨(analyze_trend_spec.1 [(1:ℚ), 2, 3] (by simp)).1,
    (analyze_trend_spec.1 [(1:ℚ), 2, 3] (by simp)).2.2.1⟩

/-- C8: `detect_anomalies` returns `[]` for fewer than 5 points or zero
variance (zero standard deviation); otherwise it flags exactly the rows with
`|value - mean| > sensitivity * std` *and*
`|deviation_pct| ≥ min_deviation` (defaulting, Python-`or`-style, to
`sensitivity * 50`), typing a flagged row `spike` when its value is above
the mean and `drop` otherwise. -/
theorem detect_anomalies_spec (rows : List (String × ℚ)) (sens : ℚ) (md : Option ℚ) :
    (rows.length < 5 → detect_anomalies sens rows md = []) ∧
    (popVar (rows.map Prod.snd) = 0 → detect_anomalies sens rows md = []) ∧
    (¬ rows.length < 5 → popVar (rows.map Prod.snd) ≠ 0 →
      ∀ a, a ∈ detect_anomalies sens rows md ↔
        ∃ d v, (d, v) ∈ rows ∧
          (sens : ℝ) * Real.sqrt ((popVar (rows.map Prod.snd) : ℚ) : ℝ)
            < ((|v - listMean (rows.map Prod.snd)| : ℚ) : ℝ) ∧
          pyOr md (sens * 50) ≤ |devPct (listMean (rows.map Prod.snd)) v| ∧
          a = { date := d
                value := v
                deviation_pct := devPct (listMean (rows.map Prod.snd)) v
                type := if v > listMean (rows.map Prod.snd) then .spike else .drop }) := by
  refine ⟨?_, ?_, ?_⟩
  · intro h
    simp [detect_anomalies, h]
  · intro hv
    by_cases h5 : rows.length < 5
    · simp [detect_anomalies, h5]
    · simp [detect_anomalies, h5, hv]
  · intro h5 hvne a
    have hvpos : 0 < popVar (rows.map Prod.snd) :=
      lt_of_le_of_ne (popVar_nonneg _) (Ne.symm hvne)
    simp only [detect_anomalies, if_neg h5, if_neg hvne]
    rw [List.mem_filterMap]
    constructor
    · rintro ⟨⟨d, v⟩, hmem, hf⟩
      dsimp only at hf
      by_cases hex : exceedsThreshold (|v - listMean (rows.map Prod.snd)|) sens
          (popVar (rows.map Prod.snd)) = true
      · rw [if_pos hex] at hf
        by_cases hmd : pyOr md (sens * 50) ≤ |devPct (listMean (rows.map Prod.snd)) v|
        · rw [if_pos hmd] at hf
          refine ⟨d, v, hmem, ?_, hmd, (Option.some.inj hf).symm⟩
          exact (exceedsThreshold_iff _ _ _ (abs_nonneg _) hvpos).mp hex
        · rw [if_neg hmd] at hf
          exact absurd hf (by simp)
      · rw [if_neg hex] at hf
        exact absurd hf (by simp)
    · rintro ⟨d, v, hmem, hthr, hmd, rfl⟩
      refine ⟨(d, v), hmem, ?_⟩
      have hex := (exceedsThreshold_iff (|v - listMean (rows.map Prod.snd)|) sens
        (popVar (rows.map Prod.snd)) (abs_nonneg _) hvpos).mpr hthr
      dsimp only
      rw [if_pos hex, if_pos hmd]

/-- The `[10,10,10,10,100]` example series, with synthetic date labels. -/
def exampleRows : List (String × ℚ) :=
  [("d1", 10), ("d2", 10), ("d3", 10), ("d4", 10), ("d5", 100)]

theorem detect_anomalies_spec_witness :
    ∀ a, a ∈ detect_anomalies 2 exampleRows none ↔
      ∃ d v, (d, v) ∈ exampleRows ∧
        ((2:ℚ) : ℝ) * Real.sqrt ((popVar (exampleRows.map Prod.snd) : ℚ) : ℝ)
          < ((|v - listMean (exampleRows.map Prod.snd)| : ℚ) : ℝ) ∧
        pyOr none ((2:ℚ) * 50) ≤ |devPct (listMean (exampleRows.map Prod.snd)) v| ∧
        a = { date := d
              value := v
              deviation_pct := devPct (listMean (exampleRows.map Prod.snd)) v
              type := if v > listMean (exampleRows.map Prod.snd) then .spike else .drop } :=
  (detect_anomalies_spec exampleRows 2 none).2.2
    (by simp [exampleRows])
    (by norm_num [popVar, ssTot, listMean, exampleRows, List.map_cons, List.map_nil,
      List.sum_cons, List.sum_nil])

/-! ## `src/utils/dates.py` — Period/Comparison Resolver

`get_quarter_dates` builds `YYYY-MM-DD` strings; they are modelled as
`PyDate` year/month/day triples.  `DatePeriod.days` subtracts Python
`date` objects, i.e. proleptic-Gregorian ordinals (`date.toordinal`);
`toordinal` below is that day count.  Years are `ℕ` with the claims stated
for `2 ≤ year` (Python `date` years start at 1, and the previous period
needs `year - 1 ≥ 1`). -/

/-- The quarter argument (`Q1`…`Q4`, validated by the source's dict lookup). -/
inductive Quarter where
  | Q1
  | Q2
  | Q3
  | Q4
deriving DecidableEq, Repr

/-- Rendering of a quarter used in period labels. -/
def quarterName (q : Quarter) : String :=
  match q with
  | .Q1 => "Q1"
  | .Q2 => "Q2"
  | .Q3 => "Q3"
  | .Q4 => "Q4"

/-- A calendar date `YYYY-MM-DD`. -/
structure PyDate where
  year : ℕ
  month : ℕ
  day : ℕ
deriving DecidableEq, Repr

/-- `get_quarter_dates`: fixed calendar quarters. -/
def get_quarter_dates (q : Quarter) (year : ℕ) : PyDate × PyDate :=
  match q with
  | .Q1 => (⟨year, 1, 1⟩, ⟨year, 3, 31⟩)
  | .Q2 => (⟨year, 4, 1⟩, ⟨year, 6, 30⟩)
  | .Q3 => (⟨year, 7, 1⟩, ⟨year, 9, 30⟩)
  | .Q4 => (⟨year, 10, 1⟩, ⟨year, 12, 31⟩)

/-- `get_previous_quarter`: Q1 wraps to Q4 of the previous year. -/
def get_previous_quarter (q : Quarter) (year : ℕ) : Quarter × ℕ :=
  match q with
  | .Q1 => (.Q4, year - 1)
  | .Q2 => (.Q1, year)
  | .Q3 => (.Q2, year)
  | .Q4 => (.Q3, year)

/-- `DatePeriod` dataclass. -/
structure DatePeriod where
  start_date : PyDate
  end_date : PyDate
  label : String
deriving DecidableEq, Repr

/-- `ComparisonPeriods` dataclass. -/
structure ComparisonPeriods where
  current : DatePeriod
  previous : DatePeriod
  comparison_type : String
deriving DecidableEq, Repr

/-- `get_comparison_periods`; an unknown `comparison_type` raises
`ValueError`, modelled as `none`. -/
def get_comparison_periods (q : Quarter) (year : ℕ) (comparison_type : String) :
    Option ComparisonPeriods :=
  let cse := get_quarter_dates q year
  let current_period : DatePeriod :=
    ⟨cse.1, cse.2, quarterName q ++ " " ++ toString year⟩
  if comparison_type = "yoy" then
    let pse := get_quarter_dates q (year - 1)
    some ⟨current_period,
          ⟨pse.1, pse.2, quarterName q ++ " " ++ toString (year - 1)⟩,
          comparison_type⟩
  else if comparison_type = "qoq" then
    let pqy := get_previous_quarter q year
    let pse := get_quarter_dates pqy.1 pqy.2
    some ⟨current_period,
          ⟨pse.1, pse.2, quarterName pqy.1 ++ " " ++ toString pqy.2⟩,
          comparison_type⟩
  else none

/-- Gregorian leap-year rule (as implemented by Python `datetime.date`). -/
def isLeap (y : ℕ) : Bool :=
  (decide (4 ∣ y) && !(decide (100 ∣ y))) || decide (400 ∣ y)

/-- Days in the years `1 … t` of the proleptic Gregorian calendar. -/
def daysBY (t : ℕ) : ℤ :=
  365 * (t : ℤ) + ((t / 4 : ℕ) : ℤ) - ((t / 100 : ℕ) : ℤ) + ((t / 400 : ℕ) : ℤ)

/-- Days before the first day of year `y` (`y ≥ 1`). -/
def daysBeforeYear (y : ℕ) : ℤ := daysBY (y - 1)

/-- Days before the first day of month `m` in a year with the given
leap flag. -/
def daysBeforeMonth (m : ℕ) (leap : Bool) : ℕ :=
  (match m with
   | 1 => 0 | 2 => 31 | 3 => 59 | 4 => 90 | 5 => 120 | 6 => 151
   | 7 => 181 | 8 => 212 | 9 => 243 | 10 => 273 | 11 => 304 | 12 => 334
   | _ => 0) +
  (if 3 ≤ m ∧ leap = true then 1 else 0)

/-- Python `date.toordinal`: day number in the proleptic Gregorian
calendar, with day 1 = January 1 of year 1. -/
def toordinal (d : PyDate) : ℤ :=
  daysBeforeYear d.year + (daysBeforeMonth d.month (isLeap d.year) : ℤ) + (d.day : ℤ)

/-- `DatePeriod.days`: `(end - start).days + 1`. -/
def periodDays (p : DatePeriod) : ℤ :=
  toordinal p.end_date - toordinal p.start_date + 1

/-- One more year of day count: 365 days plus one for a leap year. -/
lemma daysBY_succ (t : ℕ) :
    daysBY (t + 1) = daysBY t + 365 + (if isLeap (t + 1) then 1 else 0) := by
  unfold daysBY isLeap
  rw [Nat.succ_div t 4, Nat.succ_div t 100, Nat.succ_div t 400]
  by_cases h4 : 4 ∣ (t + 1) <;> by_cases h100 : 100 ∣ (t + 1) <;>
    by_cases h400 : 400 ∣ (t + 1) <;>
    simp [h4, h100, h400] <;> omega

/-- C9 counterexample: for `Q3 2024, qoq` the two resolved ranges are full
quarters of *different* lengths (92 vs 91 days), refuting the claimed
equal-length invariant. -/
theorem get_comparison_periods_unequal_lengths :
    ∃ cp, get_comparison_periods .Q3 2024 "qoq" = some cp ∧
      periodDays cp.current = 92 ∧ periodDays cp.previous = 91 ∧
      ¬ periodDays cp.current = periodDays cp.previous := by
  refine ⟨_, rfl, ?_, ?_, ?_⟩ <;> decide

/-- C9 (amended): for any quarter, any year ≥ 2 and either comparison mode,
the resolver yields two non-overlapping periods (the previous one ends
strictly before the current one starts), each being the full calendar
quarter of its respective quarter/year. -/
theorem get_comparison_periods_disjoint (q : Quarter) (y : ℕ) (mode : String)
    (hy : 2 ≤ y) (hmode : mode = "yoy" ∨ mode = "qoq") :
    ∃ cp, get_comparison_periods q y mode = some cp ∧
      toordinal cp.previous.end_date < toordinal cp.current.start_date ∧
      (cp.current.start_date, cp.current.end_date) = get_quarter_dates q y ∧
      (cp.previous.start_date, cp.previous.end_date) =
        (if mode = "yoy" then get_quarter_dates q (y - 1)
         else get_quarter_dates (get_previous_quarter q y).1
                (get_previous_quarter q y).2) := by
  obtain ⟨t, rfl⟩ : ∃ t, y = t + 2 := ⟨y - 2, by omega⟩
  have hsub : t + 2 - 1 = t + 1 := by omega
  rcases hmode with rfl | rfl <;> cases q <;>
    refine ⟨_, rfl, ?_, rfl, rfl⟩ <;>
    cases hl : isLeap (t + 1) <;> cases hl2 : isLeap (t + 2) <;>
    simp [get_quarter_dates, get_previous_quarter, toordinal, daysBeforeYear, hsub,
      Nat.add_sub_cancel, daysBY_succ, daysBeforeMonth, hl, hl2] <;>
    omega

theorem get_comparison_periods_disjoint_witness :
    2 ≤ 2025 ∧ ("qoq" = "yoy" ∨ "qoq" = "qoq") ∧
      (∃ cp, get_comparison_periods .Q1 2025 "qoq" = some cp ∧
        toordinal cp.previous.end_date < toordinal cp.current.start_date ∧
        (cp.current.start_date, cp.current.end_date) = get_quarter_dates .Q1 2025 ∧
        (cp.previous.start_date, cp.previous.end_date) =
          (if ("qoq" : String) = "yoy" then get_quarter_dates .Q1 (2025 - 1)
           else get_quarter_dates (get_previous_quarter .Q1 2025).1
                  (get_previous_quarter .Q1 2025).2)) :=
  ⟨by norm_num, Or.inr rfl,
    get_comparison_periods_disjoint .Q1 2025 "qoq" (by norm_num) (Or.inr rfl)⟩

/-! ## `src/analysis/insights_engine.py` — Insights Engine

Input sections are typed records (a missing or empty — falsy — section is
`none`/`[]`; individually missing keys are `Option` fields read through
`.getD` with the source's defaults).  Insight headline/detail/recommendation
strings keep their template text without numeric interpolation. -/

/-- The `type` field of an `Insight`. -/
inductive InsightType where
  | positive
  | negative
  | neutral
  | opportunity
deriving DecidableEq, Repr

/-- `Insight` dataclass (the `data_points` map, always left empty by the
source, is omitted). -/
structure Insight where
  category : String
  type : InsightType
  priority : ℕ
  headline : String
  detail : String
  metric_name : String
  metric_value : ℚ
  metric_change : Option ChangeMetric := none
  recommendation : Option String := none
deriving DecidableEq, Repr

/-- `settings.benchmarks` of `config/settings.py` (the engine's
`self.benchmarks`). -/
def settingsBenchmarks : List (String × ℚ) :=
  [ ("bounce_rate", 55),
    ("avg_session_duration", 120),
    ("pages_per_session", 5/2),
    ("new_visitor_rate", 70),
    ("mobile_traffic_share", 55),
    ("organic_traffic_share", 40),
    ("mobile_performance_score", 50),
    ("desktop_performance_score", 70),
    ("lcp_threshold", 5/2),
    ("cls_threshold", 1/10) ]

/-- `self.benchmarks.get(name, default)`. -/
def settingsBenchGet (name : String) (default : ℚ) : ℚ :=
  (((settingsBenchmarks.find? (fun p => p.1 == name)).map Prod.snd)).getD default

/-- The `traffic_overview` section of the GA4 snapshot. -/
structure TrafficOverview where
  total_users : Option ℚ := none
  new_users : Option ℚ := none
  bounce_rate : Option ℚ := none
  avg_session_duration : Option ℚ := none
deriving DecidableEq, Repr

/-- One row of `traffic_by_channel`. -/
structure ChannelRow where
  sessionDefaultChannelGroup : String
  sessions : ℚ
  session_share : ℚ
deriving DecidableEq, Repr

/-- One row of `top_pages`. -/
structure PageRow where
  pagePath : String
  pct_of_total : ℚ
deriving DecidableEq, Repr

/-- One row of `device_breakdown`. -/
structure DeviceRow where
  deviceCategory : String
  bounceRate : ℚ
  user_share : ℚ
deriving DecidableEq, Repr

/-- A GA4 snapshot (`ga4_current` / `ga4_previous`); a DataFrame section
missing from the dict is the same as an empty one. -/
structure GA4Data where
  traffic_overview : Option TrafficOverview := none
  traffic_by_channel : List ChannelRow := []
  top_pages : List PageRow := []
  device_breakdown : List DeviceRow := []
deriving DecidableEq, Repr

/-- The `overview` section of a GSC snapshot. -/
structure SearchOverview where
  total_clicks : Option ℚ := none
  avg_position : Option ℚ := none
deriving DecidableEq, Repr

/-- A GSC snapshot (`gsc_current` / `gsc_previous`);
`keyword_opportunities` keeps one impressions number per row. -/
structure GSCData where
  overview : Option SearchOverview := none
  keyword_opportunities : List ℚ := []
deriving DecidableEq, Repr

/-- `InsightsEngine._get_traffic_recommendation`. -/
def get_traffic_recommendation (change : ChangeMetric) : String :=
  if change.direction = .down then
    (if change.is_anomaly then
      "Urgent: Investigate significant traffic decline."
    else
      "Monitor traffic trends and review marketing channel performance.")
  else
    "Maintain momentum by analyzing what is working."

/-- `InsightsEngine._analyze_traffic` (defaults
`significant_change_threshold = 10`, `anomaly_threshold = 25` from
`config/settings.py`). -/
def analyzeTraffic (current previous : GA4Data) : List Insight :=
  match current.traffic_overview with
  | none => []
  | some curr_overview =>
    let users_change := calculate_change (curr_overview.total_users.getD 0)
      ((previous.traffic_overview.bind (·.total_users)).getD 0) 10 25 false
    let first : List Insight :=
      if users_change.is_significant then
        [{ category := "traffic"
           type := if users_change.direction = .up then .positive else .negative
           priority := if users_change.is_anomaly then 2 else 3
           headline := "Website traffic "
             ++ (if users_change.direction = .up then "increased" else "decreased")
             ++ " YoY"
           detail := "Total visitors went from the previous to the current count."
           metric_name := "total_users"
           metric_value := curr_overview.total_users.getD 0
           metric_change := some users_change
           recommendation := some (get_traffic_recommendation users_change) }]
      else []
    let new_users := curr_overview.new_users.getD 0
    let total_users := curr_overview.total_users.getD 1
    let new_user_pct := if total_users ≠ 0 then new_users / total_users * 100 else 0
    let second : List Insight :=
      if new_user_pct > 80 then
        [{ category := "traffic"
           type := .opportunity
           priority := 3
           headline := "of visitors are new users"
           detail := "High new user percentage indicates strong awareness-building."
           metric_name := "new_user_percentage"
           metric_value := new_user_pct
           recommendation := some "Consider implementing email newsletter signup." }]
      else if new_user_pct < 50 then
        [{ category := "traffic"
           type := .positive
           priority := 4
           headline := "Strong returning visitor base"
           detail := "Only a small share of visitors are new."
           metric_name := "new_user_percentage"
           metric_value := new_user_pct
           recommendation := some "Focus on expanding reach to new audiences." }]
      else []
    first ++ second

/-- `InsightsEngine._analyze_engagement`. -/
def analyzeEngagement (current previous : GA4Data) : List Insight :=
  match current.traffic_overview with
  | none => []
  | some curr_overview =>
    let bounce_rate := curr_overview.bounce_rate.getD 0
    let prev_bounce := (previous.traffic_overview.bind (·.bounce_rate)).getD 0
    let benchmark_bounce := settingsBenchGet "bounce_rate" 55
    let bounce_change := calculate_change bounce_rate prev_bounce 10 25 true
    let first : List Insight :=
      if bounce_rate > benchmark_bounce + 10 then
        [{ category := "engagement"
           type := .negative
           priority := 2
           headline := "Bounce rate significantly above nonprofit average"
           detail := "The current bounce rate is higher than the typical nonprofit benchmark."
           metric_name := "bounce_rate"
           metric_value := bounce_rate
           metric_change := some bounce_change
           recommendation := some "Review top landing pages for relevance." }]
      else if bounce_rate < benchmark_bounce - 10 then
        [{ category := "engagement"
           type := .positive
           priority := 4
           headline := "Excellent bounce rate"
           detail := "Bounce rate is better than the nonprofit average."
           metric_name := "bounce_rate"
           metric_value := bounce_rate
           metric_change := some bounce_change }]
      else []
    let avg_duration := curr_overview.avg_session_duration.getD 0
    let benchmark_duration := settingsBenchGet "avg_session_duration" 120
    let second : List Insight :=
      if avg_duration > benchmark_duration * (3/2) then
        [{ category := "engagement"
           type := .positive
           priority := 3
           headline := "Above-average session duration"
           detail := "Visitors are spending significantly more time on the site than typical."
           metric_name := "avg_session_duration"
           metric_value := avg_duration
           recommendation := some "Identify top-performing content." }]
      else if avg_duration < benchmark_duration * (1/2) then
        [{ category := "engagement"
           type := .negative
           priority := 2
           headline := "Low session duration"
           detail := "Average session duration is below the benchmark."
           metric_name := "avg_session_duration"
           metric_value := avg_duration
           recommendation := some "Improve content depth and internal linking." }]
      else []
    first ++ second

/-- `InsightsEngine._analyze_acquisition` (`total_sessions` is computed by
the source but never used). -/
def analyzeAcquisition (current _previous : GA4Data) : List Insight :=
  let channels := current.traffic_by_channel
  if channels.isEmpty then []
  else
    let organic := channels.filter
      (fun r => r.sessionDefaultChannelGroup.toLower == "organic search")
    let first : List Insight :=
      match organic.head? with
      | none => []
      | some row =>
        let organic_share := row.session_share
        let benchmark_organic := settingsBenchGet "organic_traffic_share" 40
        if organic_share > benchmark_organic + 15 then
          [{ category := "acquisition"
             type := .positive
             priority := 3
             headline := "Strong organic search presence"
             detail := "Organic search is driving a significant portion of traffic."
             metric_name := "organic_share"
             metric_value := organic_share }]
        else if organic_share < benchmark_organic - 15 then
          [{ category := "acquisition"
             type := .opportunity
             priority := 2
             headline := "Organic search opportunity"
             detail := "Organic search is below the nonprofit average."
             metric_name := "organic_share"
             metric_value := organic_share
             recommendation := some "Invest in content marketing and technical SEO." }]
        else []
    let direct := channels.filter
      (fun r => r.sessionDefaultChannelGroup.toLower == "direct")
    let second : List Insight :=
      match direct.head? with
      | none => []
      | some row =>
        if row.session_share > 40 then
          [{ category := "acquisition"
             type := .neutral
             priority := 4
             headline := "High direct traffic"
             detail := "High direct traffic often indicates strong brand recognition."
             metric_name := "direct_share"
             metric_value := row.session_share
             recommendation := some "Ensure proper UTM tagging on all campaigns." }]
        else []
    first ++ second

/-- `InsightsEngine._analyze_content`. -/
def analyzeContent (current _previous : GA4Data) : List Insight :=
  let top_pages := current.top_pages
  if top_pages.isEmpty then []
  else
    let homepage := top_pages.filter (fun r => r.pagePath == "/")
    let first : List Insight :=
      match homepage.head? with
      | none => []
      | some row =>
        if row.pct_of_total > 50 then
          [{ category := "content"
             type := .opportunity
             priority := 3
             headline := "High homepage concentration"
             detail := "More than half of all pageviews go to the homepage."
             metric_name := "homepage_share"
             metric_value := row.pct_of_total
             recommendation := some "Strengthen calls-to-action on the homepage." }]
        else []
    let second : List Insight :=
      if 3 ≤ top_pages.length then
        (let top_3_share := ((top_pages.take 3).map (·.pct_of_total)).sum
         if top_3_share > 70 then
          [{ category := "content"
             type := .opportunity
             priority := 3
             headline := "Traffic concentrated in top 3 pages"
             detail := "The majority of traffic goes to just 3 pages."
             metric_name := "top_3_concentration"
             metric_value := top_3_share
             recommendation := some "Review analytics for underperforming pages." }]
         else [])
      else []
    first ++ second

/-- `InsightsEngine._analyze_search` (`position_change` is computed by the
source but never used). -/
def analyzeSearch (current previous : GSCData) : List Insight :=
  match current.overview with
  | none => []
  | some overview =>
    let clicks_change := calculate_change (overview.total_clicks.getD 0)
      ((previous.overview.bind (·.total_clicks)).getD 0) 10 25 false
    let first : List Insight :=
      if clicks_change.is_significant then
        [{ category := "search"
           type := if clicks_change.direction = .up then .positive else .negative
           priority := 2
           headline := "Search clicks "
             ++ (if clicks_change.direction = .up then "increased" else "decreased")
             ++ " YoY"
           detail := "This reflects changes in search visibility."
           metric_name := "total_clicks"
           metric_value := overview.total_clicks.getD 0
           metric_change := some clicks_change }]
      else []
    let avg_position := overview.avg_position.getD 0
    let second : List Insight :=
      if avg_position > 20 then
        [{ category := "search"
           type := .opportunity
           priority := 2
           headline := "Average search position needs improvement"
           detail := "Average position is beyond page 2 of search results."
           metric_name := "avg_position"
           metric_value := avg_position
           recommendation := some "Focus on improving rankings for high-impression keywords." }]
      else if avg_position ≤ 10 then
        [{ category := "search"
           type := .positive
           priority := 3
           headline := "Strong search visibility"
           detail := "Average position is on page 1 of search results."
           metric_name := "avg_position"
           metric_value := avg_position }]
      else []
    let opportunities := current.keyword_opportunities
    let third : List Insight :=
      if ¬ opportunities.isEmpty ∧ 5 ≤ opportunities.length then
        [{ category := "search"
           type := .opportunity
           priority := 2
           headline := "Found keyword opportunities"
           detail := "Identified keywords with high impressions but low CTR."
           metric_name := "keyword_opportunities"
           metric_value := (opportunities.length : ℚ)
           recommendation := some "Review these keywords and optimize metadata." }]
      else []
    first ++ second ++ third

/-- `InsightsEngine._analyze_opportunities`. -/
def analyzeOpportunities (ga4_data : GA4Data) (_gsc_data : GSCData) : List Insight :=
  let device_data := ga4_data.device_breakdown
  if device_data.isEmpty then []
  else
    let mobile := device_data.filter (fun r => r.deviceCategory.toLower == "mobile")
    let desktop := device_data.filter (fun r => r.deviceCategory.toLower == "desktop")
    match mobile.head?, desktop.head? with
    | some m, some d =>
      if m.user_share > 50 ∧ m.bounceRate > d.bounceRate + 10 then
        [{ category := "opportunity"
           type := .negative
           priority := 1
           headline := "Mobile experience needs attention"
           detail := "Mobile has a much higher bounce rate than desktop."
           metric_name := "mobile_bounce_rate"
           metric_value := m.bounceRate
           recommendation := some "Prioritize mobile experience improvements." }]
      else []
    | _, _ => []

/-- The sort key of `self.insights.sort(key=lambda x: x.priority)`. -/
def insightLe (a b : Insight) : Bool := decide (a.priority ≤ b.priority)

/-- The concatenation of the six passes in registration order. -/
def allPasses (ga4_current ga4_previous : GA4Data)
    (gsc_current gsc_previous : GSCData) : List Insight :=
  analyzeTraffic ga4_current ga4_previous ++
  analyzeEngagement ga4_current ga4_previous ++
  analyzeAcquisition ga4_current ga4_previous ++
  analyzeContent ga4_current ga4_previous ++
  analyzeSearch gsc_current gsc_previous ++
  analyzeOpportunities ga4_current gsc_current

/-- `InsightsEngine.analyze`: run the six passes in order, then sort by
priority (Python `list.sort` is a stable sort; `List.mergeSort` is the
stable sort of the embedding). -/
def analyze (ga4_current ga4_previous : GA4Data)
    (gsc_current gsc_previous : GSCData) : List Insight :=
  (allPasses ga4_current ga4_previous gsc_current gsc_previous).mergeSort insightLe

/-- `InsightsEngine.get_executive_summary`, over the engine's insight list. -/
def get_executive_summary (insights : List Insight) : String :=
  if insights.isEmpty then "Insufficient data to generate executive summary."
  else
    let critical := insights.filter (fun i => i.priority ≤ 2)
    let positive := insights.filter (fun i => i.type == .positive)
    let opportunities := insights.filter (fun i => i.type == .opportunity)
    let traffic_insight := insights.find? (fun i => i.metric_name == "total_users")
    let lead : List String :=
      match traffic_insight with
      | some i =>
        (match i.metric_change with
         | some change =>
           ["Website traffic "
             ++ (if change.direction = .up then "grew" else "declined")
             ++ " year-over-year."]
         | none => [])
      | none => []
    let wins : List String :=
      match positive.head? with
      | some w => ["Key strength: " ++ w.headline ++ "."]
      | none => []
    let opps : List String :=
      match opportunities.head? with
      | some o => ["Primary opportunity: " ++ o.headline ++ "."]
      | none => []
    let crits : List String :=
      match critical.head? with
      | some c => ["Requires attention: " ++ c.headline ++ "."]
      | none => []
    String.intercalate " " (lead ++ wins ++ opps ++ crits)

/-- The priority key is transitive. -/
lemma insightLe_trans : ∀ (a b c : Insight),
    insightLe a b = true → insightLe b c = true → insightLe a c = true := by
  intro a b c
  simp only [insightLe, decide_eq_true_eq]
  omega

/-- The priority key is total. -/
lemma insightLe_total : ∀ (a b : Insight),
    (insightLe a b || insightLe b a) = true := by
  intro a b
  simp only [insightLe, Bool.or_eq_true, decide_eq_true_eq]
  omega

/-- Stability of the sort, filter form: the subsequence of insights at any
given priority is unchanged by the sort. -/
lemma mergeSort_filter_priority (l : List Insight) (p : ℕ) :
    (l.mergeSort insightLe).filter (fun i => i.priority == p)
      = l.filter (fun i => i.priority == p) := by
  have hall : ∀ a ∈ l.filter (fun i => i.priority == p),
      (fun i => i.priority == p) a = true :=
    fun a ha => (List.mem_filter.mp ha).2
  have hpair : List.Pairwise (fun a b => insightLe a b = true)
      (l.filter (fun i => i.priority == p)) := by
    apply List.pairwise_of_forall_mem_list
    intro a ha b hb
    have hpa : a.priority = p := by simpa using hall a ha
    have hpb : b.priority = p := by simpa using (List.mem_filter.mp hb).2
    simp [insightLe, hpa, hpb]
  have hstable : (l.filter (fun i => i.priority == p)).Sublist (l.mergeSort insightLe) :=
    List.mergeSort_stable insightLe_trans insightLe_total hpair (List.filter_sublist l)
  have hsub2 : (l.filter (fun i => i.priority == p)).Sublist
      ((l.mergeSort insightLe).filter (fun i => i.priority == p)) := by
    have h := hstable.filter (fun i => i.priority == p)
    rwa [List.filter_eq_self.mpr hall] at h
  have hperm : ((l.mergeSort insightLe).filter (fun i => i.priority == p)).Perm
      (l.filter (fun i => i.priority == p)) :=
    (List.mergeSort_perm l insightLe).filter (fun i => i.priority == p)
  exact (hsub2.eq_of_length hperm.length_eq.symm).symm

/-- C5: `analyze` returns the pass outputs sorted non-decreasingly by
priority, the sort being stable: it is a permutation of the concatenated
pass outputs, and at each priority the subsequence is exactly the one the
passes appended, in registration order. -/
theorem analyze_sorted_stable (ga4_current ga4_previous : GA4Data)
    (gsc_current gsc_previous : GSCData) :
    List.Pairwise (fun a b => a.priority ≤ b.priority)
      (analyze ga4_current ga4_previous gsc_current gsc_previous) ∧
    (analyze ga4_current ga4_previous gsc_current gsc_previous).Perm
      (allPasses ga4_current ga4_previous gsc_current gsc_previous) ∧
    (∀ p : ℕ,
      (analyze ga4_current ga4_previous gsc_current gsc_previous).filter
          (fun i => i.priority == p)
        = (allPasses ga4_current ga4_previous gsc_current gsc_previous).filter
            (fun i => i.priority == p)) := by
  refine ⟨?_, ?_, ?_⟩
  · have h := List.sorted_mergeSort insightLe_trans insightLe_total
      (allPasses ga4_current ga4_previous gsc_current gsc_previous)
    exact h.imp (fun hab => by simpa [insightLe] using hab)
  · exact List.mergeSort_perm _ insightLe
  · intro p
    exact mergeSort_filter_priority _ p

/-- C6: on entirely empty GA4/GSC inputs, `analyze` raises nothing and
returns the empty insight list, and `get_executive_summary` then returns
the fixed fallback string. -/
theorem analyze_empty_inputs :
    analyze {} {} {} {} = [] ∧
    get_executive_summary (analyze {} {} {} {})
      = "Insufficient data to generate executive summary." := by
  have h : analyze {} {} {} {} = [] := by
    simp [analyze, allPasses, analyzeTraffic, analyzeEngagement, analyzeAcquisition,
      analyzeContent, analyzeSearch, analyzeOpportunities, List.mergeSort_nil]
  refine ⟨h, ?_⟩
  rw [h]
  rfl
